import Mathlib

/-!
Verification of the ACG `EZRouter` automatic Manhattan wire router
(`src/ACG/AutoRouter.py`), via a shallow embedding of its routing-cursor
state machine: straight-segment extension (`draw_straight_route`),
via/turn insertion (`draw_via`), L-route composition, the
manhattanization algorithm (`manhattanize_point_list`) and the cascade
router (`cardinal_router`).

The rectangle/anchor primitive, the layout generator and the technology
configuration are external collaborators of `AutoRouter.py` (their code
is not part of the analysed source); they are modelled from the spec's
interface description, as noted on each such definition.  Coordinates
are rationals.
-/

namespace ACG

/-- Modelled from the spec: the axis-aligned rectangle primitive
(external collaborator), carrying a layer and its four edge
coordinates. -/
structure Rect where
  layer : String
  xl : ℚ
  xr : ℚ
  yb : ℚ
  yt : ℚ
deriving Repr, DecidableEq

/-- Modelled from the spec: named anchor points of a rectangle
(center `c`, edge midpoints `cl`/`cr`/`cb`/`ct`).  Unknown handles
default to the center; the router never queries an unknown handle in
any property proved below. -/
def anchorCoord (r : Rect) (h : String) : ℚ × ℚ :=
  if h = "cl" then (r.xl, (r.yb + r.yt) / 2)
  else if h = "cr" then (r.xr, (r.yb + r.yt) / 2)
  else if h = "cb" then ((r.xl + r.xr) / 2, r.yb)
  else if h = "ct" then ((r.xl + r.xr) / 2, r.yt)
  else ((r.xl + r.xr) / 2, (r.yb + r.yt) / 2)

/-- Modelled from the spec: `Rectangle.get_dim` dimension query per axis. -/
def get_dim (r : Rect) (axis : String) : ℚ :=
  if axis = "x" then r.xr - r.xl else r.yt - r.yb

/-- Modelled from the spec: `Rectangle.set_dim` sets the dimension along
one axis.  The external code does not specify which edge stays fixed; we
fix the lower/left edge.  Every property proved below is independent of
this choice (the router always aligns or stretches after sizing). -/
def set_dim (r : Rect) (axis : String) (s : ℚ) : Rect :=
  if axis = "x" then {r with xr := r.xl + s} else {r with yt := r.yb + s}

/-- Modelled from the spec: `Rectangle.align` translates the rectangle so
that its named anchor coincides with the given reference coordinate. -/
def alignRect (r : Rect) (h : String) (p : ℚ × ℚ) : Rect :=
  let a := anchorCoord r h
  { r with
    xl := r.xl + (p.1 - a.1), xr := r.xr + (p.1 - a.1),
    yb := r.yb + (p.2 - a.2), yt := r.yt + (p.2 - a.2) }

/-- Modelled from the spec: one-sided `Rectangle.stretch` — move the edge
named by the handle to the absolute offset coordinate, per enabled axis,
holding everything else fixed. -/
def stretchRect (r : Rect) (h : String) (offset : ℚ × ℚ) (sx sy : Bool) : Rect :=
  let r1 :=
    if sx then
      if h = "cr" ∨ h = "r" then {r with xr := offset.1}
      else if h = "cl" ∨ h = "l" then {r with xl := offset.1}
      else r
    else r
  if sy then
    if h = "ct" ∨ h = "t" then {r1 with yt := offset.2}
    else if h = "cb" ∨ h = "b" then {r1 with yb := offset.2}
    else r1
  else r1

/-- A waypoint of the cascade router: an `(x, y)` coordinate paired with
a layer name, exactly the `((x, y), layer)` tuples of `AutoRouter.py`. -/
abbrev Waypoint : Type := (ℚ × ℚ) × String

/-- Two waypoints differ in exactly one of the two coordinate axes. -/
def oneAxisDiff (p q : Waypoint) : Prop :=
  (p.1.1 = q.1.1 ∧ p.1.2 ≠ q.1.2) ∨ (p.1.1 ≠ q.1.1 ∧ p.1.2 = q.1.2)

instance : DecidableRel oneAxisDiff := fun p q =>
  inferInstanceAs (Decidable
    ((p.1.1 = q.1.1 ∧ p.1.2 ≠ q.1.2) ∨ (p.1.1 ≠ q.1.1 ∧ p.1.2 = q.1.2)))

/-- The loop body of `EZRouter.manhattanize_point_list`
(`AutoRouter.py` lines 489-516), written recursively: `current_dir` is
the `'x'`/`'y'` travel axis, `current_point` the last accepted waypoint,
and the subtractions are the loop's `dx` and `dy`.  A diagonal target
inserts one intermediate waypoint along the current axis and flips the
axis; a coincident target is discarded; a single-axis target is
accepted directly. -/
def manhAux (current_dir : String) (current_point : Waypoint) :
    List Waypoint → List Waypoint
  | [] => []
  | next_point :: rest =>
    if next_point.1.1 - current_point.1.1 ≠ 0 ∧
        next_point.1.2 - current_point.1.2 ≠ 0 then
      if current_dir = "x" then
        ((current_point.1.1 + (next_point.1.1 - current_point.1.1),
            current_point.1.2), current_point.2) ::
          next_point :: manhAux "y" next_point rest
      else
        ((current_point.1.1,
            current_point.1.2 + (next_point.1.2 - current_point.1.2)),
            current_point.2) ::
          next_point :: manhAux "x" next_point rest
    else if next_point.1.1 - current_point.1.1 = 0 ∧
        next_point.1.2 - current_point.1.2 = 0 then
      manhAux current_dir current_point rest
    else
      next_point ::
        manhAux (if next_point.1.1 - current_point.1.1 = 0 then "y" else "x")
          next_point rest

/-- `EZRouter.manhattanize_point_list` (`AutoRouter.py` lines 454-517):
the initial travel axis comes from the initial direction, the list
starts with the initial point, and the loop is `manhAux`. -/
def manhattanize_point_list (initial_direction : String)
    (initial_point : Waypoint) (points : List Waypoint) : List Waypoint :=
  let current_dir :=
    if initial_direction = "+x" ∨ initial_direction = "-x" then "x" else "y"
  initial_point :: manhAux current_dir initial_point points

/-- Modelled from the spec: one entry of the technology configuration
dictionary — a (possibly partial) record of default wire width, via
array size, and asymmetric enclosure values.  A missing dictionary key
is an absent `Option`. -/
structure ConfigEntry where
  width : Option ℚ
  size : Option (Nat × Nat)
  asymm_enclosure_large : Option ℚ
  asymm_enclosure_small : Option ℚ
deriving Repr, DecidableEq

/-- Modelled from the spec: the primitive via object registered with the
layout generator by `add_prim_via`; its `size` and enclosures are set by
the router after registration (the registered object is mutated in
place, so the registry entry reflects the updates). -/
structure ViaObj where
  via_id : String
  size : Nat × Nat
  enc_bot : List ℚ
  enc_top : List ℚ
deriving Repr, DecidableEq

/-- Failure conditions of the router.  The Python code signals both as
uncaught exceptions: a missing technology-config entry is a `KeyError`
(the spec's `MissingTechnologyDefault`), and `final_point_list[-1]` on
an empty list is an `IndexError`. -/
inductive RouterErr where
  | missingDefault (key : String)
  | indexError
deriving Repr, DecidableEq

/-- The state of an `EZRouter` plus its two external collaborators: the
technology configuration (`self.config`), the physical layer-stack
order used by `Rectangle.get_highest_layer` (modelled from the spec:
larger means physically higher), the layout generator's default size
for freshly created rectangles, the four cursor fields
(`current_rect`, `current_dir`, `current_handle`, `layer`), the
router's `self.loc` lists, and the generator's append-only shape
registries (`add_rect` / `add_prim_via`). -/
structure RouterState where
  config : String → Option ConfigEntry
  stack : String → Nat
  defaultW : ℚ
  defaultH : ℚ
  current_rect : Rect
  current_dir : String
  current_handle : String
  layer : String
  loc_route_list : List Rect
  loc_rect_list : List Rect
  loc_via_list : List ViaObj
  gen_rects : List Rect
  gen_vias : List ViaObj

/-- `self.config[key]['width']` — `none` when either lookup would raise
`KeyError`. -/
def lookupWidth (st : RouterState) (key : String) : Option ℚ :=
  (st.config key).bind (fun e => e.width)

/-- Modelled from the spec: `gen.add_rect(layer=...)` creates a fresh
rectangle of the generator's default size on the given layer. -/
def defaultRect (st : RouterState) (layer : String) : Rect :=
  { layer := layer, xl := 0, xr := st.defaultW, yb := 0, yt := st.defaultH }

/-- Modelled from the spec: `Rectangle.get_highest_layer` returns
whichever of the rectangle's own layer and the argument layer is
physically higher in the stack. -/
def get_highest_layer (st : RouterState) (own other : String) : String :=
  if st.stack own ≤ st.stack other then other else own

/-- `EZRouter._set_handle_from_dir` (`AutoRouter.py` lines 579-588):
the four-way direction-to-handle mapping.  An unrecognized direction
token matches no branch and leaves the handle unchanged. -/
def set_handle_from_dir (st : RouterState) (direction : String) : RouterState :=
  if direction = "+x" then {st with current_handle := "cr"}
  else if direction = "-x" then {st with current_handle := "cl"}
  else if direction = "+y" then {st with current_handle := "ct"}
  else if direction = "-y" then {st with current_handle := "cb"}
  else st

/-- `EZRouter.__init__` (`AutoRouter.py` lines 14-56): copy the start
rectangle into the generator, record direction and layer, derive the
handle, and initialize the `loc` lists with the starting rectangle. -/
def mkEZRouter (config : String → Option ConfigEntry) (stack : String → Nat)
    (defaultW defaultH : ℚ) (start_rect : Rect) (start_direction : String) :
    RouterState :=
  let st0 : RouterState :=
    { config := config, stack := stack, defaultW := defaultW, defaultH := defaultH,
      current_rect := start_rect, current_dir := start_direction,
      current_handle := "", layer := start_rect.layer,
      loc_route_list := [start_rect], loc_rect_list := [start_rect],
      loc_via_list := [],
      gen_rects := [start_rect], gen_vias := [] }
  set_handle_from_dir st0 start_direction

/-- `EZRouter.draw_straight_route` (`AutoRouter.py` lines 58-111):
create a new rectangle on the current layer, size its perpendicular
dimension (explicit width if truthy, else the current rectangle's), align
its trailing anchor to the cursor anchor, and stretch the current handle
to the target location along the travel axis only.  The new rectangle is
registered with the generator (`add_rect`) and, being mutated in place,
appears in the registry with its final value.  Direction, handle, layer
and the `loc` lists are untouched. -/
def draw_straight_route (st : RouterState) (loc : ℚ × ℚ)
    (width : Option ℚ) : RouterState :=
  let a := anchorCoord st.current_rect st.current_handle
  let nr :=
    if st.current_dir = "+x" ∨ st.current_dir = "-x" then
      let nr1 := set_dim (defaultRect st st.current_rect.layer) "y"
        (match width with
         | some w => if w = 0 then get_dim st.current_rect "y" else w
         | none => get_dim st.current_rect "y")
      let nr2 := if st.current_dir = "+x" then alignRect nr1 "cl" a
                 else alignRect nr1 "cr" a
      stretchRect nr2 st.current_handle loc true false
    else
      let nr1 := set_dim (defaultRect st st.current_rect.layer) "x"
        (match width with
         | some w => if w = 0 then get_dim st.current_rect "x" else w
         | none => get_dim st.current_rect "x")
      let nr2 := if st.current_dir = "+y" then alignRect nr1 "cb" a
                 else alignRect nr1 "ct" a
      stretchRect nr2 st.current_handle loc false true
  {st with current_rect := nr, gen_rects := st.gen_rects ++ [nr]}

/-- The handle `_set_handle_from_dir` derives from a valid direction. -/
def handleOfDir (d : String) : String :=
  if d = "+x" then "cr" else if d = "-x" then "cl"
  else if d = "+y" then "ct" else "cb"

/-- The trailing anchor of a segment drawn in direction `d`: the handle
opposite to the leading one. -/
def trailingHandle (d : String) : String :=
  if d = "+x" then "cl" else if d = "-x" then "cr"
  else if d = "+y" then "cb" else "ct"

/-- A direction token the router documents: one of `+x`, `-x`, `+y`, `-y`. -/
def validDir (d : String) : Prop :=
  d = "+x" ∨ d = "-x" ∨ d = "+y" ∨ d = "-y"

instance (d : String) : Decidable (validDir d) :=
  inferInstanceAs (Decidable (d = "+x" ∨ d = "-x" ∨ d = "+y" ∨ d = "-y"))

/-- Update the last element of a list in place — the effect of mutating
an object that was already appended to a registry (Python aliasing). -/
def updLast {α : Type} (f : α → α) : List α → List α
  | [] => []
  | [a] => [f a]
  | a :: b :: rest => a :: updLast f (b :: rest)

/-- The canonical via identifier `draw_via` constructs
(`AutoRouter.py` lines 176-179): `'V' + lower_layer + '_' + higher_layer`,
picking the order from `get_highest_layer`. -/
def viaIdFor (st : RouterState) (layer : String) : String :=
  if get_highest_layer st st.current_rect.layer layer = st.current_rect.layer
  then "V" ++ layer ++ "_" ++ st.current_rect.layer
  else "V" ++ st.current_rect.layer ++ "_" ++ layer

/-- The asymmetric-enclosure block of `draw_via` (`AutoRouter.py` lines
184-222): when `enc_style` is `'asymm'`, look up the via's default
enclosure entry (key recomputed from the stacking order exactly as the
source does on lines 188 and 206), assign the large values to the edges
aligned with the incoming wire and the small values to the outgoing
edges, on the top or bottom layer according to which of the two layers
is physically lower, by mutating the registered via in place.  `st` is
the router before the call, `st3` the accumulated state with the via
registered. -/
def via_set_asymm (st : RouterState) (layer direction enc_style : String)
    (st3 : RouterState) : Except (RouterErr × RouterState) RouterState :=
  if enc_style = "asymm" then
    if get_highest_layer st st.current_rect.layer layer
        = st.current_rect.layer then
      match st.config ("V" ++ layer ++ "_" ++ st.current_rect.layer) with
      | none =>
        .error (.missingDefault
          ("V" ++ layer ++ "_" ++ st.current_rect.layer), st3)
      | some entry =>
        match entry.asymm_enclosure_large, entry.asymm_enclosure_small with
        | some lg, some sm =>
          let encIn :=
            if st.current_dir = "+x" ∨ st.current_dir = "-x"
            then [lg, lg, sm, sm] else [sm, sm, lg, lg]
          let encOut :=
            if direction = "+x" ∨ direction = "-x"
            then [lg, lg, sm, sm] else [sm, sm, lg, lg]
          let gv := updLast
            (fun v => {v with enc_top := encIn, enc_bot := encOut})
            st3.gen_vias
          .ok {st3 with gen_vias := gv}
        | _, _ =>
          .error (.missingDefault
            ("V" ++ layer ++ "_" ++ st.current_rect.layer), st3)
    else
      match st.config ("V" ++ st.current_rect.layer ++ "_" ++ layer) with
      | none =>
        .error (.missingDefault
          ("V" ++ st.current_rect.layer ++ "_" ++ layer), st3)
      | some entry =>
        match entry.asymm_enclosure_large, entry.asymm_enclosure_small with
        | some lg, some sm =>
          let encIn :=
            if st.current_dir = "+x" ∨ st.current_dir = "-x"
            then [lg, lg, sm, sm] else [sm, sm, lg, lg]
          let encOut :=
            if direction = "+x" ∨ direction = "-x"
            then [lg, lg, sm, sm] else [sm, sm, lg, lg]
          let gv := updLast
            (fun v => {v with enc_bot := encIn, enc_top := encOut})
            st3.gen_vias
          .ok {st3 with gen_vias := gv}
        | _, _ =>
          .error (.missingDefault
            ("V" ++ st.current_rect.layer ++ "_" ++ layer), st3)
  else .ok st3

/-- The via array-size block of `draw_via` (`AutoRouter.py` lines
225-228): an explicit size overrides, else `config[via_id]['size']` is
required — note the via is already registered in `st4` when this lookup
can fail. -/
def via_set_size (st : RouterState) (via_id : String)
    (size : Option (Nat × Nat)) (st4 : RouterState) :
    Except (RouterErr × RouterState) RouterState :=
  match size with
  | some s =>
    let gv := updLast (fun v => {v with size := s}) st4.gen_vias
    .ok {st4 with gen_vias := gv}
  | none =>
    match (st.config via_id).bind (fun e => e.size) with
    | some s =>
      let gv := updLast (fun v => {v with size := s}) st4.gen_vias
      .ok {st4 with gen_vias := gv}
    | none => .error (.missingDefault via_id, st4)

/-- The explicit enclosure overrides of `draw_via` (`AutoRouter.py`
lines 229-232). -/
def via_enc_overrides (enc_bot enc_top : Option (List ℚ))
    (st5 : RouterState) : RouterState :=
  let st6 : RouterState :=
    match enc_bot with
    | some eb =>
      let gv := updLast (fun v => {v with enc_bot := eb}) st5.gen_vias
      {st5 with gen_vias := gv}
    | none => st5
  match enc_top with
  | some et =>
    let gv := updLast (fun v => {v with enc_top := et}) st6.gen_vias
    {st6 with gen_vias := gv}
  | none => st6

/-- The tail of `draw_via` after the output width has been resolved and
the junction rectangle `nr3` fully sized (`AutoRouter.py` lines
172-239): turn in place when the target layer equals the current one,
otherwise register the primitive via under the canonical identifier and
set its enclosures and array size, then update the cursor fields. -/
def draw_via_core (st : RouterState) (layer direction enc_style : String)
    (size : Option (Nat × Nat)) (enc_bot enc_top : Option (List ℚ))
    (nr3 : Rect) : Except (RouterErr × RouterState) RouterState :=
  let st2 : RouterState := {st with gen_rects := st.gen_rects ++ [nr3]}
  let finish : RouterState → RouterState := fun s =>
    set_handle_from_dir
      {s with current_rect := nr3, current_dir := direction} direction
  if layer = st.current_rect.layer then
    .ok (finish st2)
  else
    let via_id := viaIdFor st layer
    let st3 : RouterState :=
      {st2 with gen_vias := st2.gen_vias ++
        [{via_id := via_id, size := (0, 0), enc_bot := [], enc_top := []}]}
    match via_set_asymm st layer direction enc_style st3 with
    | .error e => .error e
    | .ok st4 =>
      match via_set_size st via_id size st4 with
      | .error e => .error e
      | .ok st5 => .ok (finish (via_enc_overrides enc_bot enc_top st5))

/-- `EZRouter.draw_via` (`AutoRouter.py` lines 113-239).  The new
junction rectangle is created and registered (`add_rect`), centered on
the cursor anchor, the output width is resolved (explicit truthy
override, else `config[layer]['width']`), the rectangle is sized to the
incoming then the outgoing perpendicular width, and — only when the
target layer differs from the current one — a primitive via is
registered (`add_prim_via`) and its enclosures and array size are set,
with config lookups raising `MissingTechnologyDefault` when absent.
Finally the cursor rectangle, direction and handle are updated.  Errors
carry the state at the point of failure (Python exceptions leave prior
mutations in place). -/
def draw_via (st : RouterState) (layer : String) (direction : String)
    (enc_style : String) (out_width : Option ℚ) (size : Option (Nat × Nat))
    (enc_bot : Option (List ℚ)) (enc_top : Option (List ℚ)) :
    Except (RouterErr × RouterState) RouterState :=
  let a := anchorCoord st.current_rect st.current_handle
  let nr1 := alignRect (defaultRect st layer) "c" a
  let st1 : RouterState := {st with gen_rects := st.gen_rects ++ [nr1]}
  let owRes : Except (RouterErr × RouterState) ℚ :=
    match out_width with
    | some w =>
      if w = 0 then
        match lookupWidth st layer with
        | some w1 => .ok w1
        | none => .error (.missingDefault layer, st1)
      else .ok w
    | none =>
      match lookupWidth st layer with
      | some w1 => .ok w1
      | none => .error (.missingDefault layer, st1)
  match owRes with
  | .error e => .error e
  | .ok ow =>
    let nr2 :=
      if st.current_dir = "+x" ∨ st.current_dir = "-x" then
        set_dim nr1 "y" (get_dim st.current_rect "y")
      else
        set_dim nr1 "x" (get_dim st.current_rect "x")
    let nr3 :=
      if direction = "+x" ∨ direction = "-x" then set_dim nr2 "y" ow
      else set_dim nr2 "x" ow
    draw_via_core st layer direction enc_style size enc_bot enc_top nr3

/-- `EZRouter._draw_route_segment` (`AutoRouter.py` lines 381-452):
extend straight to `pt0`, resolve the output width (the current
perpendicular dimension when the given one is falsy), infer the turn
direction from the displacement toward `pt1` (or keep the current
direction when there is no next point), then turn via `draw_via` on
`pt0`'s layer. -/
def draw_route_segment (st : RouterState) (pt0 : Waypoint)
    (pt1 : Option Waypoint) (enc_style : String)
    (in_width out_width : Option ℚ)
    (enc_bot enc_top : Option (List ℚ)) :
    Except (RouterErr × RouterState) RouterState :=
  let s1 := draw_straight_route st pt0.1 in_width
  let ow : ℚ :=
    match out_width with
    | some w =>
      if w = 0 then
        if s1.current_dir = "+x" ∨ s1.current_dir = "-x"
        then get_dim s1.current_rect "y" else get_dim s1.current_rect "x"
      else w
    | none =>
      if s1.current_dir = "+x" ∨ s1.current_dir = "-x"
      then get_dim s1.current_rect "y" else get_dim s1.current_rect "x"
  let direction : String :=
    match pt1 with
    | some p1 =>
      if s1.current_dir = "+x" ∨ s1.current_dir = "-x" then
        if (anchorCoord s1.current_rect s1.current_handle).2 < p1.1.2
        then "+y" else "-y"
      else
        if (anchorCoord s1.current_rect s1.current_handle).1 < p1.1.1
        then "+x" else "-x"
    | none => s1.current_dir
  draw_via s1 pt0.2 direction enc_style (some ow) none enc_bot enc_top

/-- The `relative_coords` conversion of `EZRouter.cardinal_router`
(`AutoRouter.py` line 355): add the starting port's coordinate to every
target. -/
def absolutize (a : ℚ × ℚ) (points : List Waypoint) : List Waypoint :=
  points.map (fun q => ((q.1.1 + a.1, q.1.2 + a.2), q.2))

/-- The cascade loop of `EZRouter.cardinal_router`
(`AutoRouter.py` lines 366-372): for each consecutive waypoint pair,
draw one route segment with per-layer default widths from the config
(each `config[...]['width']` lookup may fail) and asymmetric
enclosures. -/
def cascadeLoop : RouterState → List (Waypoint × Waypoint) →
    Except (RouterErr × RouterState) RouterState
  | st, [] => .ok st
  | st, (pt0, pt1) :: rest =>
    match lookupWidth st st.current_rect.layer with
    | none => .error (.missingDefault st.current_rect.layer, st)
    | some w_in =>
      match lookupWidth st pt0.2 with
      | none => .error (.missingDefault pt0.2, st)
      | some w_out =>
        match draw_route_segment st pt0 (some pt1) "asymm"
            (some w_in) (some w_out) none none with
        | .error e => .error e
        | .ok s1 => cascadeLoop s1 rest

/-- `EZRouter.cardinal_router` (`AutoRouter.py` lines 320-379):
manhattanize the target list starting from the cursor anchor, drop the
leading waypoint (coincident with the starting port), cascade route
segments over consecutive pairs, and finish with a final segment at the
last waypoint — `final_point_list[-1]`, which raises `IndexError` when
the list is empty. -/
def cardinal_router (st : RouterState) (points : List Waypoint)
    (relative_coords : Bool) :
    Except (RouterErr × RouterState) RouterState :=
  let cp : Waypoint :=
    (anchorCoord st.current_rect st.current_handle, st.current_rect.layer)
  let pts := if relative_coords then absolutize cp.1 points else points
  let manh := manhattanize_point_list st.current_dir cp pts
  let final := manh.drop 1
  match cascadeLoop st (final.zip (final.drop 1)) with
  | .error e => .error e
  | .ok s1 =>
    match final.getLast? with
    | none => .error (.indexError, s1)
    | some ptLast =>
      match lookupWidth s1 s1.current_rect.layer with
      | none => .error (.missingDefault s1.current_rect.layer, s1)
      | some w_in =>
        match lookupWidth s1 ptLast.2 with
        | none => .error (.missingDefault ptLast.2, s1)
        | some w_out =>
          draw_route_segment s1 ptLast none "uniform"
            (some w_in) (some w_out) none none

/-- The router state an operation leaves behind, whether it succeeded or
failed (Python exceptions do not roll back prior mutations). -/
def stateOf (r : Except (RouterErr × RouterState) RouterState) : RouterState :=
  match r with
  | .ok s => s
  | .error (_, s) => s

/-- The error an operation raised, if any. -/
def errOf (r : Except (RouterErr × RouterState) RouterState) :
    Option RouterErr :=
  match r with
  | .ok _ => none
  | .error (e, _) => some e

/-- The coordinate of a point along the travel axis of direction `d`. -/
def axisCoord (d : String) (p : ℚ × ℚ) : ℚ :=
  if d = "+x" ∨ d = "-x" then p.1 else p.2

/-- The orientation sign of a direction token. -/
def dirSign (d : String) : ℚ :=
  if d = "+x" ∨ d = "+y" then 1 else -1

/-- A rectangle's extent along the travel axis of direction `d`. -/
def axisExtent (d : String) (r : Rect) : ℚ :=
  if d = "+x" ∨ d = "-x" then r.xr - r.xl else r.yt - r.yb

/-- A concrete technology config for witnesses: layers `M1`, `M2` have a
default width, no via identifier has an entry. -/
def sampleConfig : String → Option ConfigEntry := fun k =>
  if k = "M1" ∨ k = "M2" then
    some { width := some 2, size := none,
           asymm_enclosure_large := none, asymm_enclosure_small := none }
  else none

/-- A concrete layer stack for witnesses: `M2` above `M1`. -/
def sampleStack : String → Nat := fun k => if k = "M2" then 2 else 1

/-- A concrete starting rectangle on `M1`. -/
def sampleRect : Rect := { layer := "M1", xl := 0, xr := 10, yb := -1, yt := 1 }

/-- A concrete router cursor: start at `sampleRect`, direction `+x`. -/
def sampleState : RouterState :=
  mkEZRouter sampleConfig sampleStack 1 1 sampleRect "+x"

/-- A concrete router cursor on layer `M2`, for the via-canonicalization
witness. -/
def sampleStateB : RouterState :=
  mkEZRouter sampleConfig sampleStack 1 1 {sampleRect with layer := "M2"} "+x"

theorem manhAux_length_le (points : List Waypoint) :
    ∀ d p, (manhAux d p points).length ≤ 2 * points.length := by
  induction points with
  | nil => intro d p; simp [manhAux]
  | cons np rest ih =>
    intro d p
    simp only [manhAux]
    by_cases h1 : np.1.1 - p.1.1 ≠ 0 ∧ np.1.2 - p.1.2 ≠ 0
    · rw [if_pos h1]
      by_cases h2 : d = "x"
      · rw [if_pos h2]
        have := ih "y" np
        simp only [List.length_cons]
        omega
      · rw [if_neg h2]
        have := ih "x" np
        simp only [List.length_cons]
        omega
    · rw [if_neg h1]
      by_cases h2 : np.1.1 - p.1.1 = 0 ∧ np.1.2 - p.1.2 = 0
      · rw [if_pos h2]
        have := ih d p
        simp only [List.length_cons]
        omega
      · rw [if_neg h2]
        have := ih (if np.1.1 - p.1.1 = 0 then "y" else "x") np
        simp only [List.length_cons]
        omega

theorem manhAux_chain (points : List Waypoint) :
    ∀ d p, List.Chain' oneAxisDiff (p :: manhAux d p points) := by
  induction points with
  | nil => intro d p; simp [manhAux]
  | cons np rest ih =>
    intro d p
    simp only [manhAux]
    by_cases h1 : np.1.1 - p.1.1 ≠ 0 ∧ np.1.2 - p.1.2 ≠ 0
    · obtain ⟨hdx, hdy⟩ := h1
      have hx1 : np.1.1 ≠ p.1.1 := sub_ne_zero.1 hdx
      have hy1 : np.1.2 ≠ p.1.2 := sub_ne_zero.1 hdy
      rw [if_pos ⟨hdx, hdy⟩]
      by_cases h2 : d = "x"
      · rw [if_pos h2]
        refine List.chain'_cons.2 ⟨?_, List.chain'_cons.2 ⟨?_, ih "y" np⟩⟩
        · refine Or.inr ⟨?_, rfl⟩
          intro h
          exact hdx (by dsimp only at h; linarith)
        · refine Or.inl ⟨by dsimp only; ring, ?_⟩
          intro h
          exact hy1 (by dsimp only at h; exact h.symm)
      · rw [if_neg h2]
        refine List.chain'_cons.2 ⟨?_, List.chain'_cons.2 ⟨?_, ih "x" np⟩⟩
        · refine Or.inl ⟨rfl, ?_⟩
          intro h
          exact hdy (by dsimp only at h; linarith)
        · refine Or.inr ⟨?_, by dsimp only; ring⟩
          intro h
          exact hx1 (by dsimp only at h; exact h.symm)
    · rw [if_neg h1]
      by_cases h2 : np.1.1 - p.1.1 = 0 ∧ np.1.2 - p.1.2 = 0
      · rw [if_pos h2]; exact ih d p
      · rw [if_neg h2]
        refine List.chain'_cons.2 ⟨?_, ih _ np⟩
        rcases not_and_or.1 h1 with h | h
        · push_neg at h
          have hdy : np.1.2 - p.1.2 ≠ 0 := fun hc => h2 ⟨h, hc⟩
          refine Or.inl ⟨(sub_eq_zero.1 h).symm, ?_⟩
          intro hc
          exact (sub_ne_zero.1 hdy) hc.symm
        · push_neg at h
          have hdx : np.1.1 - p.1.1 ≠ 0 := fun hc => h2 ⟨hc, h⟩
          refine Or.inr ⟨?_, (sub_eq_zero.1 h).symm⟩
          intro hc
          exact (sub_ne_zero.1 hdx) hc.symm

theorem manhAux_id_of_chain (points : List Waypoint) :
    ∀ d p, List.Chain' oneAxisDiff (p :: points) → manhAux d p points = points := by
  induction points with
  | nil => intro d p _; simp [manhAux]
  | cons np rest ih =>
    intro d p h
    have h1 : oneAxisDiff p np := (List.chain'_cons.1 h).1
    have h2 : List.Chain' oneAxisDiff (np :: rest) := (List.chain'_cons.1 h).2
    simp only [manhAux]
    rcases h1 with ⟨hx, hy⟩ | ⟨hx, hy⟩
    · have hdx : np.1.1 - p.1.1 = 0 := by rw [hx]; ring
      have hdy : np.1.2 - p.1.2 ≠ 0 := fun hc => hy (sub_eq_zero.1 hc).symm
      rw [if_neg (by tauto), if_neg (by tauto)]
      exact congrArg (np :: ·) (ih _ np h2)
    · have hdx : np.1.1 - p.1.1 ≠ 0 := fun hc => hx (sub_eq_zero.1 hc).symm
      have hdy : np.1.2 - p.1.2 = 0 := by rw [hy]; ring
      rw [if_neg (by tauto), if_neg (by tauto)]
      exact congrArg (np :: ·) (ih _ np h2)

theorem manhAux_nil_of_coincident (points : List Waypoint) :
    ∀ d p, (∀ q ∈ points, q.1 = p.1) → manhAux d p points = [] := by
  induction points with
  | nil => intro d p _; simp [manhAux]
  | cons np rest ih =>
    intro d p h
    have hnp : np.1 = p.1 := h np (List.mem_cons_self np rest)
    have hdx : np.1.1 - p.1.1 = 0 := by rw [hnp]; ring
    have hdy : np.1.2 - p.1.2 = 0 := by rw [hnp]; ring
    simp only [manhAux]
    rw [if_neg (by tauto), if_pos ⟨hdx, hdy⟩]
    exact ih d p (fun q hq => h q (List.mem_cons_of_mem np hq))

theorem updLast_append {α : Type} (f : α → α) (l : List α) (v : α) :
    updLast f (l ++ [v]) = l ++ [f v] := by
  induction l with
  | nil => rfl
  | cons a rest ih =>
    cases rest with
    | nil => rfl
    | cons b rest2 => simpa [updLast] using ih

theorem set_handle_from_dir_gen_vias (s : RouterState) (d : String) :
    (set_handle_from_dir s d).gen_vias = s.gen_vias := by
  unfold set_handle_from_dir; split_ifs <;> rfl

theorem set_handle_from_dir_gen_rects (s : RouterState) (d : String) :
    (set_handle_from_dir s d).gen_rects = s.gen_rects := by
  unfold set_handle_from_dir; split_ifs <;> rfl

theorem set_handle_from_dir_loc_route_list (s : RouterState) (d : String) :
    (set_handle_from_dir s d).loc_route_list = s.loc_route_list := by
  unfold set_handle_from_dir; split_ifs <;> rfl

theorem set_handle_from_dir_loc_rect_list (s : RouterState) (d : String) :
    (set_handle_from_dir s d).loc_rect_list = s.loc_rect_list := by
  unfold set_handle_from_dir; split_ifs <;> rfl

theorem set_handle_from_dir_loc_via_list (s : RouterState) (d : String) :
    (set_handle_from_dir s d).loc_via_list = s.loc_via_list := by
  unfold set_handle_from_dir; split_ifs <;> rfl

theorem set_handle_from_dir_current_rect (s : RouterState) (d : String) :
    (set_handle_from_dir s d).current_rect = s.current_rect := by
  unfold set_handle_from_dir; split_ifs <;> rfl

theorem set_handle_from_dir_current_dir (s : RouterState) (d : String) :
    (set_handle_from_dir s d).current_dir = s.current_dir := by
  unfold set_handle_from_dir; split_ifs <;> rfl

theorem set_handle_from_dir_layer (s : RouterState) (d : String) :
    (set_handle_from_dir s d).layer = s.layer := by
  unfold set_handle_from_dir; split_ifs <;> rfl

theorem via_set_asymm_locs (st : RouterState) (layer direction enc_style : String)
    (st3 : RouterState) :
    (stateOf (via_set_asymm st layer direction enc_style st3)).loc_route_list
      = st3.loc_route_list ∧
    (stateOf (via_set_asymm st layer direction enc_style st3)).loc_rect_list
      = st3.loc_rect_list ∧
    (stateOf (via_set_asymm st layer direction enc_style st3)).loc_via_list
      = st3.loc_via_list ∧
    (stateOf (via_set_asymm st layer direction enc_style st3)).gen_rects
      = st3.gen_rects ∧
    (stateOf (via_set_asymm st layer direction enc_style st3)).layer
      = st3.layer := by
  unfold via_set_asymm
  repeat' split
  all_goals exact ⟨rfl, rfl, rfl, rfl, rfl⟩

theorem via_set_asymm_vias (st : RouterState) (layer direction enc_style : String)
    (st3 : RouterState) (base : List ViaObj) (v : ViaObj)
    (h : st3.gen_vias = base ++ [v]) :
    ∃ v2, (stateOf (via_set_asymm st layer direction enc_style st3)).gen_vias
      = base ++ [v2] := by
  unfold via_set_asymm
  repeat' split
  all_goals exact ⟨_, by
    dsimp only [stateOf]
    first
      | rw [h, updLast_append]
      | rw [h]⟩

theorem via_set_size_locs (st : RouterState) (via_id : String)
    (size : Option (Nat × Nat)) (st4 : RouterState) :
    (stateOf (via_set_size st via_id size st4)).loc_route_list
      = st4.loc_route_list ∧
    (stateOf (via_set_size st via_id size st4)).loc_rect_list
      = st4.loc_rect_list ∧
    (stateOf (via_set_size st via_id size st4)).loc_via_list
      = st4.loc_via_list ∧
    (stateOf (via_set_size st via_id size st4)).gen_rects = st4.gen_rects ∧
    (stateOf (via_set_size st via_id size st4)).layer = st4.layer := by
  unfold via_set_size
  repeat' split
  all_goals exact ⟨rfl, rfl, rfl, rfl, rfl⟩

theorem via_set_size_vias (st : RouterState) (via_id : String)
    (size : Option (Nat × Nat)) (st4 : RouterState) (base : List ViaObj)
    (v : ViaObj) (h : st4.gen_vias = base ++ [v]) :
    ∃ v2, (stateOf (via_set_size st via_id size st4)).gen_vias
      = base ++ [v2] := by
  unfold via_set_size
  repeat' split
  all_goals exact ⟨_, by
    dsimp only [stateOf]
    first
      | rw [h, updLast_append]
      | rw [h]⟩

theorem via_enc_overrides_locs (enc_bot enc_top : Option (List ℚ))
    (st5 : RouterState) :
    (via_enc_overrides enc_bot enc_top st5).loc_route_list
      = st5.loc_route_list ∧
    (via_enc_overrides enc_bot enc_top st5).loc_rect_list
      = st5.loc_rect_list ∧
    (via_enc_overrides enc_bot enc_top st5).loc_via_list
      = st5.loc_via_list ∧
    (via_enc_overrides enc_bot enc_top st5).gen_rects = st5.gen_rects ∧
    (via_enc_overrides enc_bot enc_top st5).layer = st5.layer := by
  unfold via_enc_overrides
  repeat' split
  all_goals exact ⟨rfl, rfl, rfl, rfl, rfl⟩

theorem via_enc_overrides_vias (enc_bot enc_top : Option (List ℚ))
    (st5 : RouterState) (base : List ViaObj) (v : ViaObj)
    (h : st5.gen_vias = base ++ [v]) :
    ∃ v2, (via_enc_overrides enc_bot enc_top st5).gen_vias = base ++ [v2] := by
  unfold via_enc_overrides
  repeat' split
  all_goals exact ⟨_, by
    dsimp only
    first
      | rw [h, updLast_append, updLast_append]
      | rw [h, updLast_append]
      | rw [h]⟩

theorem via_set_asymm_uniform (st : RouterState) (layer direction : String)
    (enc_style : String) (st3 : RouterState) (h : enc_style ≠ "asymm") :
    via_set_asymm st layer direction enc_style st3 = .ok st3 := by
  simp [via_set_asymm, h]

theorem via_set_size_missing (st : RouterState) (via_id : String)
    (st4 : RouterState)
    (h : (st.config via_id).bind (fun e => e.size) = none) :
    via_set_size st via_id none st4
      = .error (.missingDefault via_id, st4) := by
  simp [via_set_size, h]

/-- Claim C2: for every initial direction, initial point, and input list
of `N` targets, `manhattanize_point_list` returns at most `2N` waypoints
in addition to the initial point, and every pair of consecutive points
in the returned list differs in exactly one of the two coordinate
axes. -/
theorem manhattanize_bend_bound (d : String) (p0 : Waypoint)
    (pts : List Waypoint) :
    (manhattanize_point_list d p0 pts).length ≤ 2 * pts.length + 1 ∧
    List.Chain' oneAxisDiff (manhattanize_point_list d p0 pts) := by
  unfold manhattanize_point_list
  refine ⟨?_, manhAux_chain pts _ p0⟩
  have := manhAux_length_le pts
    (if d = "+x" ∨ d = "-x" then "x" else "y") p0
  simp only [List.length_cons]
  omega

/-- Claim C7: when every consecutive pair along the route (starting
point included) already differs in exactly one axis,
`manhattanize_point_list` inserts no intermediate waypoints — the
output is exactly the starting point followed by the input list, so
dropping the output's leading waypoint (the duplicate of the start)
recovers the input unchanged. -/
theorem manhattanize_id_on_axis_aligned (d : String) (p0 : Waypoint)
    (pts : List Waypoint)
    (h : List.Chain' oneAxisDiff (p0 :: pts)) :
    manhattanize_point_list d p0 pts = p0 :: pts := by
  unfold manhattanize_point_list
  exact congrArg (p0 :: ·) (manhAux_id_of_chain pts _ p0 h)

theorem manhattanize_id_on_axis_aligned_witness :
    List.Chain' oneAxisDiff
      [(((0 : ℚ), (0 : ℚ)), "M1"), ((1, 0), "M1"), ((1, 2), "M1")] ∧
    manhattanize_point_list "+x" (((0 : ℚ), (0 : ℚ)), "M1")
        [((1, 0), "M1"), ((1, 2), "M1")]
      = [(((0 : ℚ), (0 : ℚ)), "M1"), ((1, 0), "M1"), ((1, 2), "M1")] :=
  ⟨by
    refine List.chain'_cons.2 ⟨Or.inr ⟨by norm_num, rfl⟩, ?_⟩
    refine List.chain'_cons.2 ⟨Or.inl ⟨rfl, by norm_num⟩, ?_⟩
    exact List.chain'_singleton _,
   manhattanize_id_on_axis_aligned "+x" (((0 : ℚ), (0 : ℚ)), "M1")
    [((1, 0), "M1"), ((1, 2), "M1")] (by
      refine List.chain'_cons.2 ⟨Or.inr ⟨by norm_num, rfl⟩, ?_⟩
      refine List.chain'_cons.2 ⟨Or.inl ⟨rfl, by norm_num⟩, ?_⟩
      exact List.chain'_singleton _)⟩

/-- Claim C10: a `cardinal_router` call whose target list is empty, or
whose targets (after the relative-coordinate conversion) all coincide
with the starting anchor, manhattanizes to the single starting
waypoint; the leading waypoint is dropped, the cascade loop does
nothing, and indexing the last element of the now-empty list fails
with an `IndexError` — at least one target distinct from the start is
required to complete. -/
theorem cardinal_router_requires_distinct_target (st : RouterState)
    (points : List Waypoint) (relative_coords : Bool)
    (h : ∀ q ∈ (if relative_coords then
          absolutize (anchorCoord st.current_rect st.current_handle) points
        else points),
      q.1 = anchorCoord st.current_rect st.current_handle) :
    cardinal_router st points relative_coords = .error (.indexError, st) := by
  unfold cardinal_router manhattanize_point_list
  have hm := manhAux_nil_of_coincident
    (if relative_coords then
      absolutize (anchorCoord st.current_rect st.current_handle) points
     else points)
    (if st.current_dir = "+x" ∨ st.current_dir = "-x" then "x" else "y")
    (anchorCoord st.current_rect st.current_handle, st.current_rect.layer)
    h
  simp only [hm, List.drop, cascadeLoop]
  simp [cascadeLoop]

theorem cardinal_router_requires_distinct_target_witness :
    (∀ q ∈ (if false then
          absolutize (anchorCoord sampleState.current_rect
            sampleState.current_handle) []
        else ([] : List Waypoint)),
      q.1 = anchorCoord sampleState.current_rect sampleState.current_handle) ∧
    cardinal_router sampleState [] false = .error (.indexError, sampleState) :=
  ⟨by simp,
   cardinal_router_requires_distinct_target sampleState [] false (by simp)⟩

/-- Claim C1: in each of the four directions, `draw_straight_route`
creates a segment whose trailing anchor (`cl` for `+x`, `cr` for `-x`,
`cb` for `+y`, `ct` for `-y`) coincides exactly with the prior cursor
anchor — segments are edge-contiguous with no gap and no overlap — and
the operation leaves the cursor's direction, handle and layer
unchanged. -/
theorem extend_edge_contiguity (st : RouterState) (loc : ℚ × ℚ)
    (width : Option ℚ) (hv : validDir st.current_dir)
    (hh : st.current_handle = handleOfDir st.current_dir) :
    anchorCoord (draw_straight_route st loc width).current_rect
        (trailingHandle st.current_dir)
      = anchorCoord st.current_rect st.current_handle ∧
    (draw_straight_route st loc width).current_dir = st.current_dir ∧
    (draw_straight_route st loc width).current_handle = st.current_handle ∧
    (draw_straight_route st loc width).layer = st.layer ∧
    (draw_straight_route st loc width).current_rect.layer
      = st.current_rect.layer := by
  rcases hv with h | h | h | h <;>
    simp only [handleOfDir, h, String.reduceEq, reduceIte] at hh <;>
    refine ⟨?_, by simp [draw_straight_route], by simp [draw_straight_route],
      by simp [draw_straight_route], ?_⟩ <;>
    simp [draw_straight_route, trailingHandle, anchorCoord, alignRect,
      set_dim, get_dim, stretchRect, defaultRect, h, hh, Prod.ext_iff] <;>
    ring

theorem extend_edge_contiguity_witness :
    validDir sampleState.current_dir ∧
    sampleState.current_handle = handleOfDir sampleState.current_dir ∧
    (anchorCoord (draw_straight_route sampleState (5, 3) none).current_rect
        (trailingHandle sampleState.current_dir)
      = anchorCoord sampleState.current_rect sampleState.current_handle ∧
    (draw_straight_route sampleState (5, 3) none).current_dir
      = sampleState.current_dir ∧
    (draw_straight_route sampleState (5, 3) none).current_handle
      = sampleState.current_handle ∧
    (draw_straight_route sampleState (5, 3) none).layer = sampleState.layer ∧
    (draw_straight_route sampleState (5, 3) none).current_rect.layer
      = sampleState.current_rect.layer) :=
  ⟨by decide, by decide,
   extend_edge_contiguity sampleState (5, 3) none (by decide) (by decide)⟩

/-- Claim C4, counterexample: a `draw_straight_route` call whose target
lies on the wrong side of the cursor (anchor at `x = 10`, target
`x = 5` while travelling `+x`) does not fail at all — the resulting
rectangle has its right edge left of its left edge (negative extent)
and is registered with the layout generator. -/
theorem extend_wrong_side_cex :
    (draw_straight_route sampleState (5, 0) none).current_rect.xr
      < (draw_straight_route sampleState (5, 0) none).current_rect.xl ∧
    (draw_straight_route sampleState (5, 0) none).current_rect
      ∈ (draw_straight_route sampleState (5, 0) none).gen_rects := by
  simp only [draw_straight_route, sampleState, mkEZRouter, set_handle_from_dir,
    sampleRect, defaultRect, anchorCoord, alignRect, set_dim, get_dim,
    stretchRect, String.reduceEq, reduceIte]
  norm_num

/-- Claim C4, amended: a `draw_straight_route` call whose target
coordinate lies on the wrong side of the cursor along the travel axis
is not rejected — the operation completes and silently produces a
rectangle with negative extent along that axis. -/
theorem extend_wrong_side_negative_extent (st : RouterState) (loc : ℚ × ℚ)
    (width : Option ℚ) (hv : validDir st.current_dir)
    (hh : st.current_handle = handleOfDir st.current_dir)
    (hw : dirSign st.current_dir *
      (axisCoord st.current_dir loc -
        axisCoord st.current_dir
          (anchorCoord st.current_rect st.current_handle)) < 0) :
    axisExtent st.current_dir
      (draw_straight_route st loc width).current_rect < 0 := by
  rcases hv with h | h | h | h <;>
    simp only [handleOfDir, h, String.reduceEq, reduceIte] at hh <;>
    simp [draw_straight_route, axisExtent, axisCoord, dirSign, anchorCoord,
      alignRect, set_dim, get_dim, stretchRect, defaultRect, h, hh] at hw ⊢ <;>
    linarith

theorem extend_wrong_side_negative_extent_witness :
    validDir sampleState.current_dir ∧
    sampleState.current_handle = handleOfDir sampleState.current_dir ∧
    dirSign sampleState.current_dir *
      (axisCoord sampleState.current_dir (5, 0) -
        axisCoord sampleState.current_dir
          (anchorCoord sampleState.current_rect
            sampleState.current_handle)) < 0 ∧
    axisExtent sampleState.current_dir
      (draw_straight_route sampleState (5, 0) none).current_rect < 0 :=
  ⟨by decide, by decide,
   by
     simp only [sampleState, mkEZRouter, set_handle_from_dir, sampleRect,
       dirSign, axisCoord, anchorCoord, String.reduceEq, reduceIte]
     norm_num,
   extend_wrong_side_negative_extent sampleState (5, 0) none
     (by decide) (by decide)
     (by
       simp only [sampleState, mkEZRouter, set_handle_from_dir, sampleRect,
         dirSign, axisCoord, anchorCoord, String.reduceEq, reduceIte]
       norm_num)⟩

/-- Claim C5: a `draw_via` call whose target layer equals the cursor's
current layer registers no via (in every outcome, success or failure),
and on success only turns the cursor: the direction becomes the
requested one, the handle is rederived from it, and the replacement
junction rectangle stays on the same layer. -/
theorem same_layer_jog_no_via (st : RouterState) (direction enc_style : String)
    (out_width : Option ℚ) (size : Option (Nat × Nat))
    (enc_bot enc_top : Option (List ℚ)) (hd : validDir direction) :
    (stateOf (draw_via st st.current_rect.layer direction enc_style
        out_width size enc_bot enc_top)).gen_vias = st.gen_vias ∧
    (stateOf (draw_via st st.current_rect.layer direction enc_style
        out_width size enc_bot enc_top)).loc_via_list = st.loc_via_list ∧
    (∀ s1, draw_via st st.current_rect.layer direction enc_style
        out_width size enc_bot enc_top = .ok s1 →
      s1.current_dir = direction ∧
      s1.current_handle = handleOfDir direction ∧
      s1.current_rect.layer = st.current_rect.layer ∧
      s1.layer = st.layer) := by
  have hpost : ∀ s2 : RouterState,
      s2.current_rect.layer = st.current_rect.layer →
      s2.gen_vias = st.gen_vias →
      s2.loc_via_list = st.loc_via_list →
      s2.layer = st.layer →
      s2.current_dir = direction →
      (stateOf (Except.ok (set_handle_from_dir s2 direction))).gen_vias
        = st.gen_vias ∧
      (stateOf (Except.ok (set_handle_from_dir s2 direction))).loc_via_list
        = st.loc_via_list ∧
      (∀ s1, (Except.ok (set_handle_from_dir s2 direction) :
          Except (RouterErr × RouterState) RouterState) = Except.ok s1 →
        s1.current_dir = direction ∧
        s1.current_handle = handleOfDir direction ∧
        s1.current_rect.layer = st.current_rect.layer ∧
        s1.layer = st.layer) := by
    intro s2 h1 h2 h3 h4 h5
    refine ⟨by simp [stateOf, set_handle_from_dir_gen_vias, h2],
      by simp [stateOf, set_handle_from_dir_loc_via_list, h3], ?_⟩
    intro s1 hs1
    simp only [Except.ok.injEq] at hs1
    subst hs1
    refine ⟨by simp [set_handle_from_dir_current_dir, h5], ?_,
      by simp [set_handle_from_dir_current_rect, h1],
      by simp [set_handle_from_dir_layer, h4]⟩
    rcases hd with h | h | h | h <;>
      simp [set_handle_from_dir, handleOfDir, h]
  have hl3 : ∀ ow : ℚ,
      (if direction = "+x" ∨ direction = "-x" then
        set_dim
          (if st.current_dir = "+x" ∨ st.current_dir = "-x" then
            set_dim
              (alignRect (defaultRect st st.current_rect.layer) "c"
                (anchorCoord st.current_rect st.current_handle))
              "y" (get_dim st.current_rect "y")
          else
            set_dim
              (alignRect (defaultRect st st.current_rect.layer) "c"
                (anchorCoord st.current_rect st.current_handle))
              "x" (get_dim st.current_rect "x"))
          "y" ow
      else
        set_dim
          (if st.current_dir = "+x" ∨ st.current_dir = "-x" then
            set_dim
              (alignRect (defaultRect st st.current_rect.layer) "c"
                (anchorCoord st.current_rect st.current_handle))
              "y" (get_dim st.current_rect "y")
          else
            set_dim
              (alignRect (defaultRect st st.current_rect.layer) "c"
                (anchorCoord st.current_rect st.current_handle))
              "x" (get_dim st.current_rect "x"))
          "x" ow).layer = st.current_rect.layer := by
    intro ow
    by_cases h1 : direction = "+x" ∨ direction = "-x" <;>
      by_cases h2 : st.current_dir = "+x" ∨ st.current_dir = "-x" <;>
      simp [h1, h2, set_dim, alignRect, defaultRect]
  have hcore : ∀ nr3 : Rect, nr3.layer = st.current_rect.layer →
      (stateOf (draw_via_core st st.current_rect.layer direction enc_style
        size enc_bot enc_top nr3)).gen_vias = st.gen_vias ∧
      (stateOf (draw_via_core st st.current_rect.layer direction enc_style
        size enc_bot enc_top nr3)).loc_via_list = st.loc_via_list ∧
      (∀ s1, draw_via_core st st.current_rect.layer direction enc_style
          size enc_bot enc_top nr3 = .ok s1 →
        s1.current_dir = direction ∧
        s1.current_handle = handleOfDir direction ∧
        s1.current_rect.layer = st.current_rect.layer ∧
        s1.layer = st.layer) := by
    intro nr3 hl
    unfold draw_via_core
    dsimp only
    rw [if_pos rfl]
    exact hpost _ hl rfl rfl rfl rfl
  unfold draw_via
  dsimp only
  rcases out_width with _ | w
  · rcases hlw : lookupWidth st st.current_rect.layer with _ | w1 <;>
      simp only [hlw]
    · exact ⟨rfl, rfl, fun s1 hs1 => absurd hs1 (by simp)⟩
    · exact hcore _ (hl3 w1)
  · by_cases hw : w = 0
    · subst hw
      simp only [eq_self_iff_true, if_true, reduceIte]
      rcases hlw : lookupWidth st st.current_rect.layer with _ | w1 <;>
        simp only [hlw]
      · exact ⟨rfl, rfl, fun s1 hs1 => absurd hs1 (by simp)⟩
      · exact hcore _ (hl3 w1)
    · simp only [if_neg hw]
      exact hcore _ (hl3 w)

theorem same_layer_jog_no_via_witness :
    validDir "+y" ∧
    ((stateOf (draw_via sampleState sampleState.current_rect.layer "+y"
        "uniform" none none none none)).gen_vias = sampleState.gen_vias ∧
     (stateOf (draw_via sampleState sampleState.current_rect.layer "+y"
        "uniform" none none none none)).loc_via_list
        = sampleState.loc_via_list ∧
     (∀ s1, draw_via sampleState sampleState.current_rect.layer "+y"
        "uniform" none none none none = .ok s1 →
      s1.current_dir = "+y" ∧
      s1.current_handle = handleOfDir "+y" ∧
      s1.current_rect.layer = sampleState.current_rect.layer ∧
      s1.layer = sampleState.layer)) :=
  ⟨by decide,
   same_layer_jog_no_via sampleState "+y" "uniform" none none none none
     (by decide)⟩

/-- Claim C3, counterexample: with a technology config in which layer
`M2` has a width but the via identifier `VM1_M2` has no entry, a
`draw_via` from `M1` to `M2` with no explicit size does fail with
`MissingTechnologyDefault` — but at the moment of failure a via HAS
been registered with the generator (the `add_prim_via` call on source
line 180 precedes the `config[via_id]['size']` lookup on line 228), so
the state is not unchanged with respect to via registration. -/
theorem missing_size_after_registration_cex :
    errOf (draw_via sampleState "M2" "+y" "uniform" none none none none)
      = some (.missingDefault "VM1_M2") ∧
    sampleState.gen_vias.length = 0 ∧
    (stateOf (draw_via sampleState "M2" "+y" "uniform" none none none
      none)).gen_vias.length = 1 := by
  refine ⟨?_, by decide, ?_⟩ <;>
    simp [draw_via, draw_via_core, errOf, stateOf, sampleState, mkEZRouter,
      set_handle_from_dir, sampleRect, sampleConfig, sampleStack,
      lookupWidth, viaIdFor, get_highest_layer, via_set_asymm,
      via_set_size, defaultRect]

/-- Claim C3, amended: a `draw_via` call whose required default is
absent from the technology config fails with
`MissingTechnologyDefault`; when the missing default is the output
width the failure occurs before any via is registered, but when the
missing default is the via array size (or the asymmetric enclosure
entry) of a layer-changing call, the via has already been registered
with the layout generator when the failure occurs. -/
theorem missing_default_fails (st : RouterState) :
    (∀ layer direction enc_style size eb et,
      lookupWidth st layer = none →
      errOf (draw_via st layer direction enc_style none size eb et)
        = some (.missingDefault layer) ∧
      (stateOf (draw_via st layer direction enc_style none size eb
        et)).gen_vias = st.gen_vias) ∧
    (∀ layer direction (w : ℚ) eb et,
      layer ≠ st.current_rect.layer → w ≠ 0 →
      st.config (viaIdFor st layer) = none →
      errOf (draw_via st layer direction "uniform" (some w) none eb et)
        = some (.missingDefault (viaIdFor st layer)) ∧
      (stateOf (draw_via st layer direction "uniform" (some w) none eb
        et)).gen_vias.length = st.gen_vias.length + 1) := by
  constructor
  · intro layer direction enc_style size eb et h
    unfold draw_via
    simp only [h]
    exact ⟨rfl, rfl⟩
  · intro layer direction w eb et hne hw hcfg
    unfold draw_via
    dsimp only
    rw [if_neg hw]
    unfold draw_via_core
    dsimp only
    rw [if_neg hne,
      via_set_asymm_uniform st layer direction "uniform" _ (by decide)]
    dsimp only
    rw [via_set_size_missing st _ _ (by rw [hcfg]; rfl)]
    exact ⟨rfl, by simp [stateOf]⟩

theorem missing_default_fails_witness :
    (lookupWidth sampleState "M9" = none ∧
      errOf (draw_via sampleState "M9" "+y" "uniform" none none none none)
        = some (.missingDefault "M9") ∧
      (stateOf (draw_via sampleState "M9" "+y" "uniform" none none none
        none)).gen_vias = sampleState.gen_vias) ∧
    ("M2" ≠ sampleState.current_rect.layer ∧ (1 : ℚ) ≠ 0 ∧
      sampleState.config (viaIdFor sampleState "M2") = none ∧
      errOf (draw_via sampleState "M2" "+y" "uniform" (some 1) none none
        none) = some (.missingDefault (viaIdFor sampleState "M2")) ∧
      (stateOf (draw_via sampleState "M2" "+y" "uniform" (some 1) none
        none none)).gen_vias.length = sampleState.gen_vias.length + 1) :=
  ⟨⟨by decide,
    (missing_default_fails sampleState).1 "M9" "+y" "uniform" none none
      none (by decide)⟩,
   ⟨by decide, by norm_num,
    ⟨by decide,
     (missing_default_fails sampleState).2 "M2" "+y" 1 none none
       (by decide) (by norm_num) (by decide)⟩⟩⟩

/-- Claim C8, counterexample: the direction token `"z"` is outside
`{+x,-x,+y,-y}`, yet a same-layer `draw_via` with it succeeds (no
failure of any kind): `_set_handle_from_dir` matches no branch and
leaves the stale handle `cr` in place while the direction is set to
`"z"`. -/
theorem invalid_direction_cex :
    ¬ validDir "z" ∧
    errOf (draw_via sampleState sampleState.current_rect.layer "z"
      "uniform" (some 1) none none none) = none ∧
    (stateOf (draw_via sampleState sampleState.current_rect.layer "z"
      "uniform" (some 1) none none none)).current_handle = "cr" ∧
    sampleState.current_handle = "cr" ∧
    (stateOf (draw_via sampleState sampleState.current_rect.layer "z"
      "uniform" (some 1) none none none)).current_dir = "z" := by
  refine ⟨by decide, ?_, ?_, by decide, ?_⟩ <;>
    simp [draw_via, draw_via_core, errOf, stateOf, sampleState, mkEZRouter,
      set_handle_from_dir, sampleRect, sampleConfig, sampleStack,
      lookupWidth, defaultRect]

/-- Claim C8, amended: a direction token outside `{+x,-x,+y,-y}` is not
rejected: `_set_handle_from_dir` silently leaves the state unchanged
(one stale handle), and a `draw_via` given such a token proceeds and
succeeds, storing the invalid token as the current direction while
keeping the stale handle. -/
theorem invalid_direction_not_rejected (st : RouterState) :
    (∀ d, ¬ validDir d → set_handle_from_dir st d = st) ∧
    (∀ d (w : ℚ), ¬ validDir d → w ≠ 0 →
      errOf (draw_via st st.current_rect.layer d "uniform" (some w) none
        none none) = none ∧
      (stateOf (draw_via st st.current_rect.layer d "uniform" (some w)
        none none none)).current_handle = st.current_handle ∧
      (stateOf (draw_via st st.current_rect.layer d "uniform" (some w)
        none none none)).current_dir = d) := by
  have hfour : ∀ d, ¬ validDir d →
      d ≠ "+x" ∧ d ≠ "-x" ∧ d ≠ "+y" ∧ d ≠ "-y" := by
    intro d hdv
    exact ⟨fun h => hdv (Or.inl h), fun h => hdv (Or.inr (Or.inl h)),
      fun h => hdv (Or.inr (Or.inr (Or.inl h))),
      fun h => hdv (Or.inr (Or.inr (Or.inr h)))⟩
  constructor
  · intro d hdv
    obtain ⟨h1, h2, h3, h4⟩ := hfour d hdv
    simp [set_handle_from_dir, h1, h2, h3, h4]
  · intro d w hdv hw
    obtain ⟨h1, h2, h3, h4⟩ := hfour d hdv
    unfold draw_via
    dsimp only
    rw [if_neg hw]
    unfold draw_via_core
    dsimp only
    rw [if_pos rfl]
    refine ⟨rfl, ?_, ?_⟩ <;>
      simp [stateOf, set_handle_from_dir, h1, h2, h3, h4]

theorem invalid_direction_not_rejected_witness :
    (¬ validDir "z" ∧ set_handle_from_dir sampleState "z" = sampleState) ∧
    (¬ validDir "z" ∧ (1 : ℚ) ≠ 0 ∧
      errOf (draw_via sampleState sampleState.current_rect.layer "z"
        "uniform" (some 1) none none none) = none ∧
      (stateOf (draw_via sampleState sampleState.current_rect.layer "z"
        "uniform" (some 1) none none none)).current_handle
        = sampleState.current_handle ∧
      (stateOf (draw_via sampleState sampleState.current_rect.layer "z"
        "uniform" (some 1) none none none)).current_dir = "z") :=
  ⟨⟨by decide, (invalid_direction_not_rejected sampleState).1 "z"
      (by decide)⟩,
   ⟨by decide, by norm_num,
    (invalid_direction_not_rejected sampleState).2 "z" 1 (by decide)
      (by norm_num)⟩⟩

/-- Claim C6: for two distinct layers with a known stacking
relationship (distinct physical heights), the canonical via identifier
`draw_via` constructs is the same whether the cursor sits on `A` and
targets `B` or sits on `B` and targets `A` — and therefore both calls
read the same technology-config entry for default array size and
enclosure. -/
theorem via_id_canonical (st1 st2 : RouterState) (A B : String)
    (hA : st1.current_rect.layer = A) (hB : st2.current_rect.layer = B)
    (hstack : st1.stack = st2.stack) (hconfig : st1.config = st2.config)
    (hne : st1.stack A ≠ st1.stack B) :
    viaIdFor st1 B = viaIdFor st2 A ∧
    st1.config (viaIdFor st1 B) = st2.config (viaIdFor st2 A) := by
  have hAB : A ≠ B := fun h => hne (by rw [h])
  have key : viaIdFor st1 B = viaIdFor st2 A := by
    unfold viaIdFor get_highest_layer
    rw [hA, hB, ← hstack]
    rcases lt_or_gt_of_ne hne with hlt | hgt
    · simp [Nat.le_of_lt hlt, Nat.not_le.2 hlt, Ne.symm hAB]
    · simp [Nat.le_of_lt hgt, Nat.not_le.2 hgt, hAB]
  exact ⟨key, by rw [key, hconfig]⟩

theorem via_id_canonical_witness :
    (sampleState.current_rect.layer = "M1" ∧
     sampleStateB.current_rect.layer = "M2" ∧
     sampleState.stack = sampleStateB.stack ∧
     sampleState.config = sampleStateB.config ∧
     sampleState.stack "M1" ≠ sampleState.stack "M2") ∧
    (viaIdFor sampleState "M2" = viaIdFor sampleStateB "M1" ∧
     sampleState.config (viaIdFor sampleState "M2")
       = sampleStateB.config (viaIdFor sampleStateB "M1")) :=
  ⟨⟨by decide, by decide, rfl, rfl, by decide⟩,
   via_id_canonical sampleState sampleStateB "M1" "M2" (by decide)
     (by decide) rfl rfl (by decide)⟩

theorem via_pipeline_locs (st : RouterState)
    (layer direction enc_style : String) (size : Option (Nat × Nat))
    (enc_bot enc_top : Option (List ℚ)) (nr3 : Rect) (st3 : RouterState)
    (v : ViaObj)
    (h1 : st3.loc_route_list = st.loc_route_list)
    (h2 : st3.loc_rect_list = st.loc_rect_list)
    (h3 : st3.loc_via_list = st.loc_via_list)
    (h4 : st.gen_rects <+: st3.gen_rects)
    (h5 : st3.gen_vias = st.gen_vias ++ [v]) :
    (stateOf (match via_set_asymm st layer direction enc_style st3 with
      | .error e => .error e
      | .ok st4 =>
        match via_set_size st (viaIdFor st layer) size st4 with
        | .error e => .error e
        | .ok st5 =>
          .ok (set_handle_from_dir
            {via_enc_overrides enc_bot enc_top st5 with
              current_rect := nr3, current_dir := direction}
            direction))).loc_route_list = st.loc_route_list ∧
    (stateOf (match via_set_asymm st layer direction enc_style st3 with
      | .error e => .error e
      | .ok st4 =>
        match via_set_size st (viaIdFor st layer) size st4 with
        | .error e => .error e
        | .ok st5 =>
          .ok (set_handle_from_dir
            {via_enc_overrides enc_bot enc_top st5 with
              current_rect := nr3, current_dir := direction}
            direction))).loc_rect_list = st.loc_rect_list ∧
    (stateOf (match via_set_asymm st layer direction enc_style st3 with
      | .error e => .error e
      | .ok st4 =>
        match via_set_size st (viaIdFor st layer) size st4 with
        | .error e => .error e
        | .ok st5 =>
          .ok (set_handle_from_dir
            {via_enc_overrides enc_bot enc_top st5 with
              current_rect := nr3, current_dir := direction}
            direction))).loc_via_list = st.loc_via_list ∧
    st.gen_rects <+:
      (stateOf (match via_set_asymm st layer direction enc_style st3 with
        | .error e => .error e
        | .ok st4 =>
          match via_set_size st (viaIdFor st layer) size st4 with
          | .error e => .error e
          | .ok st5 =>
            .ok (set_handle_from_dir
              {via_enc_overrides enc_bot enc_top st5 with
                current_rect := nr3, current_dir := direction}
              direction))).gen_rects ∧
    st.gen_vias <+:
      (stateOf (match via_set_asymm st layer direction enc_style st3 with
        | .error e => .error e
        | .ok st4 =>
          match via_set_size st (viaIdFor st layer) size st4 with
          | .error e => .error e
          | .ok st5 =>
            .ok (set_handle_from_dir
              {via_enc_overrides enc_bot enc_top st5 with
                current_rect := nr3, current_dir := direction}
              direction))).gen_vias := by
  obtain ⟨a1, a2, a3, a4, _⟩ :=
    via_set_asymm_locs st layer direction enc_style st3
  obtain ⟨vA, hvA⟩ :=
    via_set_asymm_vias st layer direction enc_style st3 st.gen_vias v h5
  cases hA : via_set_asymm st layer direction enc_style st3 with
  | error e =>
    rcases e with ⟨e1, e2⟩
    rw [hA] at a1 a2 a3 a4 hvA
    simp only [stateOf] at a1 a2 a3 a4 hvA ⊢
    exact ⟨by rw [a1, h1], by rw [a2, h2], by rw [a3, h3],
      by rw [a4]; exact h4, by rw [hvA]; exact List.prefix_append _ _⟩
  | ok st4 =>
    rw [hA] at a1 a2 a3 a4 hvA
    simp only [stateOf] at a1 a2 a3 a4 hvA
    dsimp only
    obtain ⟨b1, b2, b3, b4, _⟩ :=
      via_set_size_locs st (viaIdFor st layer) size st4
    obtain ⟨vB, hvB⟩ :=
      via_set_size_vias st (viaIdFor st layer) size st4 st.gen_vias vA hvA
    cases hS : via_set_size st (viaIdFor st layer) size st4 with
    | error e =>
      rcases e with ⟨e1, e2⟩
      rw [hS] at b1 b2 b3 b4 hvB
      simp only [stateOf] at b1 b2 b3 b4 hvB ⊢
      exact ⟨by rw [b1, a1, h1], by rw [b2, a2, h2], by rw [b3, a3, h3],
        by rw [b4, a4]; exact h4,
        by rw [hvB]; exact List.prefix_append _ _⟩
    | ok st5 =>
      rw [hS] at b1 b2 b3 b4 hvB
      simp only [stateOf] at b1 b2 b3 b4 hvB
      obtain ⟨c1, c2, c3, c4, _⟩ := via_enc_overrides_locs enc_bot enc_top st5
      obtain ⟨vC, hvC⟩ :=
        via_enc_overrides_vias enc_bot enc_top st5 st.gen_vias vB hvB
      simp only [stateOf, set_handle_from_dir_loc_route_list,
        set_handle_from_dir_loc_rect_list, set_handle_from_dir_loc_via_list,
        set_handle_from_dir_gen_rects, set_handle_from_dir_gen_vias]
      exact ⟨by rw [c1, b1, a1, h1], by rw [c2, b2, a2, h2],
        by rw [c3, b3, a3, h3], by rw [c4, b4, a4]; exact h4,
        by rw [hvC]; exact List.prefix_append _ _⟩

theorem draw_via_core_locs (st : RouterState)
    (layer direction enc_style : String) (size : Option (Nat × Nat))
    (enc_bot enc_top : Option (List ℚ)) (nr3 : Rect) :
    (stateOf (draw_via_core st layer direction enc_style size enc_bot
      enc_top nr3)).loc_route_list = st.loc_route_list ∧
    (stateOf (draw_via_core st layer direction enc_style size enc_bot
      enc_top nr3)).loc_rect_list = st.loc_rect_list ∧
    (stateOf (draw_via_core st layer direction enc_style size enc_bot
      enc_top nr3)).loc_via_list = st.loc_via_list ∧
    st.gen_rects <+: (stateOf (draw_via_core st layer direction enc_style
      size enc_bot enc_top nr3)).gen_rects ∧
    st.gen_vias <+: (stateOf (draw_via_core st layer direction enc_style
      size enc_bot enc_top nr3)).gen_vias := by
  unfold draw_via_core
  dsimp only
  by_cases hL : layer = st.current_rect.layer
  · rw [if_pos hL]
    refine ⟨?_, ?_, ?_, ?_, ?_⟩ <;>
      simp [stateOf, set_handle_from_dir_loc_route_list,
        set_handle_from_dir_loc_rect_list, set_handle_from_dir_loc_via_list,
        set_handle_from_dir_gen_rects, set_handle_from_dir_gen_vias,
        List.prefix_append, List.prefix_rfl]
  · rw [if_neg hL]
    exact via_pipeline_locs st layer direction enc_style size enc_bot
      enc_top nr3 _ _ rfl rfl rfl (List.prefix_append _ _) rfl

/-- Claim C9, counterexample: after a `draw_straight_route`, the
router's `loc` lists are exactly what they were at construction — the
newly produced segment rectangle has NOT been appended to
`loc['rect_list']` (no code in `AutoRouter.py` ever appends to the
`loc` dictionary initialized on lines 52-56). -/
theorem history_not_appended_cex :
    (draw_straight_route sampleState (5, 0) none).loc_rect_list
      = sampleState.loc_rect_list ∧
    (draw_straight_route sampleState (5, 0) none).current_rect
      ∉ (draw_straight_route sampleState (5, 0) none).loc_rect_list := by
  constructor
  · simp [draw_straight_route]
  · simp only [draw_straight_route, sampleState, mkEZRouter,
      set_handle_from_dir, sampleRect, defaultRect, anchorCoord, alignRect,
      set_dim, get_dim, stretchRect, String.reduceEq, reduceIte,
      List.mem_singleton, Rect.mk.injEq]
    norm_num

/-- Claim C9, amended: the router's `loc` history lists are never
modified after construction — `draw_straight_route` and `draw_via`
leave all three untouched, so they keep holding only the starting
rectangle.  The shapes the router produces are registered only with the
layout generator, whose rectangle and via registries are append-only
(the prior registry is always a prefix of the new one, and each
straight segment appends exactly its new rectangle). -/
theorem history_lists_static (st : RouterState) :
    (∀ loc w,
      (draw_straight_route st loc w).loc_route_list = st.loc_route_list ∧
      (draw_straight_route st loc w).loc_rect_list = st.loc_rect_list ∧
      (draw_straight_route st loc w).loc_via_list = st.loc_via_list ∧
      (draw_straight_route st loc w).gen_rects
        = st.gen_rects ++ [(draw_straight_route st loc w).current_rect] ∧
      (draw_straight_route st loc w).gen_vias = st.gen_vias) ∧
    (∀ layer direction enc_style ow size eb et,
      (stateOf (draw_via st layer direction enc_style ow size eb
        et)).loc_route_list = st.loc_route_list ∧
      (stateOf (draw_via st layer direction enc_style ow size eb
        et)).loc_rect_list = st.loc_rect_list ∧
      (stateOf (draw_via st layer direction enc_style ow size eb
        et)).loc_via_list = st.loc_via_list ∧
      st.gen_rects <+: (stateOf (draw_via st layer direction enc_style ow
        size eb et)).gen_rects ∧
      st.gen_vias <+: (stateOf (draw_via st layer direction enc_style ow
        size eb et)).gen_vias) := by
  constructor
  · intro loc w
    refine ⟨?_, ?_, ?_, ?_, ?_⟩ <;> simp [draw_straight_route]
  · intro layer direction enc_style ow size eb et
    unfold draw_via
    dsimp only
    rcases ow with _ | w
    · rcases hlw : lookupWidth st layer with _ | w1 <;> simp only [hlw]
      · exact ⟨rfl, rfl, rfl, List.prefix_append _ _, List.prefix_rfl⟩
      · exact draw_via_core_locs st layer direction enc_style size eb et _
    · by_cases hw : w = 0
      · subst hw
        simp only [eq_self_iff_true, if_true, reduceIte]
        rcases hlw : lookupWidth st layer with _ | w1 <;> simp only [hlw]
        · exact ⟨rfl, rfl, rfl, List.prefix_append _ _, List.prefix_rfl⟩
        · exact draw_via_core_locs st layer direction enc_style size eb et _
      · simp only [if_neg hw]
        exact draw_via_core_locs st layer direction enc_style size eb et _

end ACG
